import Mathlib

/-!
Verification of the workout data model in `src/Workout.py` of the
Smartwatch-Tracker repository.

Modelling conventions (shallow embedding):
* Python floats and datetime instants are modelled as exact rationals (ℚ);
  an instant is measured in seconds, so `(end - start).total_seconds()` is
  plain subtraction and hours are `seconds / 3600`.
* The two external collaborators are opaque parameters:
  `gps : Pt → Pt → ℚ` stands for `gpsDistance` from `lec20_helpers`
  (distance in km between two (lat, lon) pairs), and
  `parse : String → Option ℚ` stands for `dateutil.parser.parse`
  (`none` models a raised parse error).
* A Python method that can raise returns `Option _`; `none` is the raised
  exception, and the caller's record is untouched in that case.
* The class hierarchy `Workout` / `RunWorkout` / `SwimWorkout` is modelled
  by structures with an embedded base part, and dynamic dispatch by the sum
  type `WRecord`.
-/

/-- A (latitude, longitude) pair, as fed to `gpsDistance`. -/
abbrev Pt : Type := ℚ × ℚ

/-- Base class `Workout`: fields set by `Workout.__init__`
(`src/Workout.py` lines 13-22), with `start`/`end` already parsed. -/
structure Workout where
  start : ℚ
  end_ : ℚ
  icon : String
  kind : String
  calories : Option ℚ
deriving DecidableEq

/-- Class variable `Workout.cal_per_hr = 200` (line 11). -/
def Workout.cal_per_hr : ℚ := 200

/-- Method `Workout.get_calories` (lines 24-30): explicit calories if present,
otherwise `cal_per_hr * total_seconds / 3600`. -/
def Workout.get_calories (w : Workout) : ℚ :=
  match w.calories with
  | none => Workout.cal_per_hr * (w.end_ - w.start) / 3600
  | some c => c

/-- Method `Workout.get_duration` (lines 32-34): `end - start`, in seconds. -/
def Workout.get_duration (w : Workout) : ℚ :=
  w.end_ - w.start

/-- Subclass `RunWorkout` (lines 88-131): base part plus elevation gain
and an optional GPS route. -/
structure RunWorkout where
  toWorkout : Workout
  elev : ℚ
  route_gps_points : Option (List Pt)
deriving DecidableEq

/-- Class variable `RunWorkout.cals_per_km = 100` (line 92). -/
def RunWorkout.cals_per_km : ℚ := 100

/-- The accumulation loop of `RunWorkout.get_calories` (lines 120-124):
`for p in points[1:]: dist += gpsDistance(lastP, p); lastP = p`. -/
def routeDistLoop (gps : Pt → Pt → ℚ) (lastP : Pt) (pts : List Pt) (dist : ℚ) : ℚ :=
  match pts with
  | [] => dist
  | p :: rest => routeDistLoop gps p rest (dist + gps lastP p)

/-- Method `RunWorkout.get_calories` (lines 115-127).  When a route is supplied the
code reads `route_gps_points[0]` before looping, so a supplied empty route
raises `IndexError` (modelled as `none`); any supplied route bypasses the
explicit-calories path.  With no route it delegates to the base method. -/
def RunWorkout.get_calories (gps : Pt → Pt → ℚ) (r : RunWorkout) : Option ℚ :=
  match r.route_gps_points with
  | none => some r.toWorkout.get_calories
  | some [] => none
  | some (p0 :: rest) => some (routeDistLoop gps p0 rest 0 * RunWorkout.cals_per_km)

/-- Subclass `SwimWorkout` (lines 137-165): base part plus pace. -/
structure SwimWorkout where
  toWorkout : Workout
  pace : ℚ
deriving DecidableEq

/-- Class variable `SwimWorkout.cal_per_hr = 400` (line 141). -/
def SwimWorkout.cal_per_hr : ℚ := 400

/-- Method `SwimWorkout.get_calories` (lines 158-165): explicit calories if
present, otherwise the swim-specific hourly rate times duration. -/
def SwimWorkout.get_calories (s : SwimWorkout) : ℚ :=
  match s.toWorkout.calories with
  | none => SwimWorkout.cal_per_hr * (s.toWorkout.end_ - s.toWorkout.start) / 3600
  | some c => c

/-- The post-parse body of `Workout.__init__` (lines 18-22). -/
def mkWorkoutCore (st en : ℚ) (calories : Option ℚ) : Workout :=
  { start := st, end_ := en, icon := "😓", kind := "Workout", calories := calories }

/-- Constructor `Workout.__init__` (lines 13-22): parse both strings (a failure raises,
modelled as `none`), then store the fields. -/
def mkWorkout (parse : String → Option ℚ) (start end_ : String) (calories : Option ℚ) :
    Option Workout := do
  let st ← parse start
  let en ← parse end_
  pure (mkWorkoutCore st en calories)

/-- The post-parse body of `RunWorkout.__init__` (lines 94-105):
the base constructor, then the run-specific icon, kind and fields. -/
def mkRunWorkoutCore (st en : ℚ) (elev : ℚ) (calories : Option ℚ)
    (route : Option (List Pt)) : RunWorkout :=
  { toWorkout := { mkWorkoutCore st en calories with icon := "🏃🏽‍", kind := "Running" }
    elev := elev
    route_gps_points := route }

/-- Constructor `RunWorkout.__init__` (lines 94-105). -/
def mkRunWorkout (parse : String → Option ℚ) (start end_ : String) (elev : ℚ)
    (calories : Option ℚ) (route : Option (List Pt)) : Option RunWorkout := do
  let st ← parse start
  let en ← parse end_
  pure (mkRunWorkoutCore st en elev calories route)

/-- The post-parse body of `SwimWorkout.__init__` (lines 143-152). -/
def mkSwimWorkoutCore (st en : ℚ) (pace : ℚ) (calories : Option ℚ) : SwimWorkout :=
  { toWorkout := { mkWorkoutCore st en calories with icon := "🏊‍", kind := "Swimming" }
    pace := pace }

/-- Constructor `SwimWorkout.__init__` (lines 143-152). -/
def mkSwimWorkout (parse : String → Option ℚ) (start end_ : String) (pace : ℚ)
    (calories : Option ℚ) : Option SwimWorkout := do
  let st ← parse start
  let en ← parse end_
  pure (mkSwimWorkoutCore st en pace calories)

/-- A workout record of any of the three runtime classes; Python's dynamic
dispatch and exact `type(self) == type(other)` check are case analysis on
this sum. -/
inductive WRecord where
  | base : Workout → WRecord
  | run : RunWorkout → WRecord
  | swim : SwimWorkout → WRecord
deriving DecidableEq

/-- The base-part fields of a record, whichever class it has. -/
def WRecord.toWorkout : WRecord → Workout
  | .base w => w
  | .run r => r.toWorkout
  | .swim s => s.toWorkout

/-- Polymorphically dispatched `get_calories`; `none` models a raised
`IndexError` (only possible for a `RunWorkout` with a supplied empty
route). -/
def WRecord.get_calories (gps : Pt → Pt → ℚ) : WRecord → Option ℚ
  | .base w => some w.get_calories
  | .run r => r.get_calories gps
  | .swim s => s.get_calories

/-- Tag identifying the runtime class, for the `type(self) == type(other)`
test. -/
def WRecord.tag : WRecord → Nat
  | .base _ => 0
  | .run _ => 1
  | .swim _ => 2

/-- The `start`/`end`/`kind` comparisons of `Workout.__eq__` (lines
63-65). -/
def baseFieldsEq (a b : Workout) : Bool :=
  decide (a.start = b.start) && decide (a.end_ = b.end_) && decide (a.kind = b.kind)

/-- Methods `Workout.__eq__` (lines 60-66) together with the `RunWorkout.__eq__`
override (lines 129-131), with Python's dispatch and short-circuiting:
a class mismatch or a field mismatch yields `False` before any
`get_calories` call; in the run/run case the two (possibly raising)
`get_calories` calls happen only after the plain fields matched, and an
`IndexError` propagates (`none`). -/
def weq (gps : Pt → Pt → ℚ) : WRecord → WRecord → Option Bool
  | .base a, .base b =>
      some (baseFieldsEq a b && decide (a.get_calories = b.get_calories))
  | .run a, .run b =>
      if baseFieldsEq a.toWorkout b.toWorkout then do
        let ca ← a.get_calories gps
        let cb ← b.get_calories gps
        pure (decide (ca = cb) && decide (a.elev = b.elev))
      else some false
  | .swim a, .swim b =>
      some (baseFieldsEq a.toWorkout b.toWorkout && decide (a.get_calories = b.get_calories))
  | _, _ => some false

/-- Method `Workout.set_calories` (lines 44-46): store the given value (total). -/
def WRecord.set_calories : WRecord → Option ℚ → WRecord
  | .base w, c => .base { w with calories := c }
  | .run r, c => .run { r with toWorkout := { r.toWorkout with calories := c } }
  | .swim s, c => .swim { s with toWorkout := { s.toWorkout with calories := c } }

/-- Method `Workout.set_start` (lines 48-50): `self.start = parser.parse(start)`;
the parse happens before the assignment, so a parse failure raises with the
record untouched (`none`). -/
def WRecord.set_start (parse : String → Option ℚ) (w : WRecord) (s : String) :
    Option WRecord := do
  let t ← parse s
  pure (match w with
    | .base b => .base { b with start := t }
    | .run r => .run { r with toWorkout := { r.toWorkout with start := t } }
    | .swim sw => .swim { sw with toWorkout := { sw.toWorkout with start := t } })

/-- Method `Workout.set_end` (lines 52-54), symmetric to `set_start`. -/
def WRecord.set_end (parse : String → Option ℚ) (w : WRecord) (s : String) :
    Option WRecord := do
  let t ← parse s
  pure (match w with
    | .base b => .base { b with end_ := t }
    | .run r => .run { r with toWorkout := { r.toWorkout with end_ := t } }
    | .swim sw => .swim { sw with toWorkout := { sw.toWorkout with end_ := t } })

/-- Method `RunWorkout.set_elev` (lines 111-113). -/
def RunWorkout.set_elev (r : RunWorkout) (e : ℚ) : RunWorkout :=
  { r with elev := e }

/-- The elevation field, when the record is a running workout. -/
def WRecord.elev? : WRecord → Option ℚ
  | .run r => some r.elev
  | _ => none

/-- The route field, when the record is a running workout. -/
def WRecord.route? : WRecord → Option (Option (List Pt))
  | .run r => some r.route_gps_points
  | _ => none

/-- The pace field, when the record is a swimming workout. -/
def WRecord.pace? : WRecord → Option ℚ
  | .swim s => some s.pace
  | _ => none

/-- The loop of `total_calories` (lines 171-176): `cals = 0`, then
`cals += w.get_calories()` for each workout; an exception propagates. -/
def totalCaloriesLoop (gps : Pt → Pt → ℚ) (ws : List WRecord) (cals : ℚ) : Option ℚ :=
  match ws with
  | [] => some cals
  | w :: rest => do
      let c ← w.get_calories gps
      totalCaloriesLoop gps rest (cals + c)

/-- Function `total_calories` (lines 171-176). -/
def total_calories (gps : Pt → Pt → ℚ) (ws : List WRecord) : Option ℚ :=
  totalCaloriesLoop gps ws 0

/-- The loop of `total_elapsed_time` (lines 194-198): parse both strings of
each pair and add `(end - start)` in seconds; a parse failure raises. -/
def totalElapsedLoop (parse : String → Option ℚ) (pairs : List (String × String))
    (total : ℚ) : Option ℚ :=
  match pairs with
  | [] => some total
  | (s, e) :: rest => do
      let st ← parse s
      let en ← parse e
      totalElapsedLoop parse rest (total + (en - st))

/-- Function `total_elapsed_time` (lines 185-199). -/
def total_elapsed_time (parse : String → Option ℚ) (pairs : List (String × String)) :
    Option ℚ :=
  totalElapsedLoop parse pairs 0

/-- Sum of `gps` over consecutive pairs of a point list, the "sum over i of
geoDistanceKm(p[i], p[i+1])" of the specification. -/
def pairSum (gps : Pt → Pt → ℚ) : List Pt → ℚ
  | [] => 0
  | [_] => 0
  | p :: q :: rest => gps p q + pairSum gps (q :: rest)

/-- The extra condition `RunWorkout.__eq__` adds over the base equality:
equal elevation gain when both records are running workouts, nothing
otherwise. -/
def elevEqCond : WRecord → WRecord → Prop
  | .run a, .run b => a.elev = b.elev
  | _, _ => True

/-- Parse every pair of a time-range list and collect the differences
`end - start` (in seconds); `none` as soon as one string fails to parse,
exactly the strings `total_elapsed_time` parses and in the same order. -/
def parsedDiffs (parse : String → Option ℚ) : List (String × String) → Option (List ℚ)
  | [] => some []
  | (s, e) :: rest =>
      (parse s).bind fun st =>
        (parse e).bind fun en =>
          (parsedDiffs parse rest).map fun ds => (en - st) :: ds

/-! ## Helper lemmas -/

/-- The accumulation loop computes the accumulator plus the consecutive-pair
distance sum. -/
lemma routeDistLoop_eq_pairSum (gps : Pt → Pt → ℚ) (pts : List Pt) :
    ∀ (p0 : Pt) (acc : ℚ), routeDistLoop gps p0 pts acc = acc + pairSum gps (p0 :: pts) := by
  induction pts with
  | nil => intro p0 acc; simp [routeDistLoop, pairSum]
  | cons p rest ih =>
      intro p0 acc
      rw [routeDistLoop, ih p (acc + gps p0 p)]
      show acc + gps p0 p + pairSum gps (p :: rest) = acc + pairSum gps (p0 :: p :: rest)
      rw [pairSum]
      ring

/-- The elapsed-time loop computes the accumulator plus the sum of the
parsed differences, raising exactly when some string fails to parse. -/
lemma totalElapsedLoop_eq_parsedDiffs (parse : String → Option ℚ)
    (pairs : List (String × String)) :
    ∀ acc : ℚ, totalElapsedLoop parse pairs acc =
      (parsedDiffs parse pairs).map (fun ds => acc + ds.sum) := by
  induction pairs with
  | nil => intro acc; simp [totalElapsedLoop, parsedDiffs]
  | cons pr rest ih =>
      intro acc
      obtain ⟨s, e⟩ := pr
      cases hs : parse s with
      | none => simp [totalElapsedLoop, parsedDiffs, hs]
      | some st =>
        cases he : parse e with
        | none => simp [totalElapsedLoop, parsedDiffs, hs, he]
        | some en =>
          rw [totalElapsedLoop]
          simp only [hs, he]
          show totalElapsedLoop parse rest (acc + (en - st)) =
            (parsedDiffs parse ((s, e) :: rest)).map (fun ds => acc + ds.sum)
          rw [ih (acc + (en - st))]
          cases hd : parsedDiffs parse rest with
          | none => simp [parsedDiffs, hs, he, hd]
          | some ds =>
            simp only [parsedDiffs, hs, he, hd, Option.some_bind, Option.map_some,
              Option.map_some', Option.some.injEq, List.sum_cons]
            ring

/-! ## Claim theorems -/

/-- C1 counterexample: a RunningWorkout with explicit calories 5 and a
single-point route returns 0, not 5 — the supplied route takes precedence
even when it has fewer than 2 points, contradicting the claim's final
clause. -/
theorem c1_explicit_calories_counterexample :
    RunWorkout.get_calories (fun _ _ => 0)
      (mkRunWorkoutCore 0 3600 0 (some 5) (some [((0 : ℚ), (0 : ℚ))])) = some 0 ∧
    (0 : ℚ) ≠ 5 := by
  constructor
  · norm_num [RunWorkout.get_calories, mkRunWorkoutCore, mkWorkoutCore, routeDistLoop,
      RunWorkout.cals_per_km]
  · decide

/-- C1 (amended): a record constructed with explicit calories `c` returns
`c` from `getCalories()` — for a base Workout, a SwimmingWorkout, and a
RunningWorkout whose route is ABSENT; whenever a RunningWorkout's route is
present (whatever its length), the result is computed from the route and
is independent of the explicit calories value. -/
theorem c1_explicit_calories_amended (gps : Pt → Pt → ℚ) (st en c elev pace : ℚ) :
    (mkWorkoutCore st en (some c)).get_calories = c ∧
    (mkSwimWorkoutCore st en pace (some c)).get_calories = c ∧
    RunWorkout.get_calories gps (mkRunWorkoutCore st en elev (some c) none) = some c ∧
    (∀ pts : List Pt,
      RunWorkout.get_calories gps (mkRunWorkoutCore st en elev (some c) (some pts)) =
      RunWorkout.get_calories gps (mkRunWorkoutCore st en elev none (some pts))) := by
  refine ⟨rfl, rfl, rfl, ?_⟩
  intro pts
  cases pts with
  | nil => rfl
  | cons p rest => rfl

/-- C2: a RunningWorkout with a present route of at least 2 points returns
the sum of `gps` over consecutive pairs times 100; in particular for the
route [(42.3601, -71.0589), (42.3370, -71.2092)] it returns
`gps p0 p1 * 100`. -/
theorem c2_route_distance_calories (gps : Pt → Pt → ℚ) (st en elev : ℚ)
    (cal : Option ℚ) (p0 p1 : Pt) (rest : List Pt) :
    RunWorkout.get_calories gps (mkRunWorkoutCore st en elev cal (some (p0 :: p1 :: rest))) =
      some (pairSum gps (p0 :: p1 :: rest) * 100) ∧
    RunWorkout.get_calories gps (mkRunWorkoutCore st en elev cal
        (some [((42.3601 : ℚ), (-71.0589 : ℚ)), ((42.3370 : ℚ), (-71.2092 : ℚ))])) =
      some (gps (42.3601, -71.0589) (42.3370, -71.2092) * 100) := by
  constructor
  · show some (routeDistLoop gps p0 (p1 :: rest) 0 * RunWorkout.cals_per_km) = _
    rw [routeDistLoop_eq_pairSum]
    norm_num [RunWorkout.cals_per_km]
  · show some (routeDistLoop gps (42.3601, -71.0589) [(42.3370, -71.2092)] 0 *
        RunWorkout.cals_per_km) = _
    rw [routeDistLoop_eq_pairSum]
    norm_num [pairSum, RunWorkout.cals_per_km]

/-- C3 counterexample: a RunningWorkout whose route is present but EMPTY
does not return 0 calories — the code reads `route_gps_points[0]` and
raises `IndexError` (modelled as `none`). -/
theorem c3_short_route_counterexample :
    RunWorkout.get_calories (fun _ _ => 0) (mkRunWorkoutCore 0 3600 0 none (some [])) = none ∧
    RunWorkout.get_calories (fun _ _ => 0) (mkRunWorkoutCore 0 3600 0 none (some [])) ≠
      some 0 := by
  exact ⟨rfl, by decide⟩

/-- C3 (amended): a RunningWorkout with a present SINGLE-point route
succeeds and returns 0 calories (the distance sum over zero consecutive
pairs is 0); a present EMPTY route instead raises an index error rather
than returning 0. -/
theorem c3_short_route_amended (gps : Pt → Pt → ℚ) (st en elev : ℚ) (cal : Option ℚ)
    (p : Pt) :
    RunWorkout.get_calories gps (mkRunWorkoutCore st en elev cal (some [p])) = some 0 ∧
    RunWorkout.get_calories gps (mkRunWorkoutCore st en elev cal (some [])) = none := by
  constructor
  · show some (routeDistLoop gps p [] 0 * RunWorkout.cals_per_km) = some 0
    norm_num [routeDistLoop]
  · rfl

/-- C5: a base Workout with no explicit calories returns
`200 * durationHours` where `durationHours = (end - start) / 3600` (the
difference in seconds converted to hours, possibly negative); a
RunningWorkout with no route and no explicit calories delegates to exactly
this base computation with the base rate 200. -/
theorem c5_base_duration_estimate (gps : Pt → Pt → ℚ) (st en elev : ℚ) :
    (mkWorkoutCore st en none).get_calories = 200 * ((en - st) / 3600) ∧
    RunWorkout.get_calories gps (mkRunWorkoutCore st en elev none none) =
      some ((mkWorkoutCore st en none).get_calories) ∧
    RunWorkout.get_calories gps (mkRunWorkoutCore st en elev none none) =
      some (200 * ((en - st) / 3600)) := by
  have hbase : (mkWorkoutCore st en none).get_calories = 200 * ((en - st) / 3600) := by
    show Workout.cal_per_hr * (en - st) / 3600 = 200 * ((en - st) / 3600)
    rw [Workout.cal_per_hr]
    ring
  exact ⟨hbase, rfl, by rw [← hbase]; rfl⟩

/-- C6: a SwimmingWorkout with no explicit calories returns
`400 * durationHours` (the swim-specific rate, double the base 200); the
stored pace is never consulted by `getCalories()`; and equality between two
SwimmingWorkouts (which has no swim-specific override) ignores pace. -/
theorem c6_swim_calories (gps : Pt → Pt → ℚ) (st en pace : ℚ) :
    (mkSwimWorkoutCore st en pace none).get_calories = 400 * ((en - st) / 3600) ∧
    SwimWorkout.cal_per_hr = 2 * Workout.cal_per_hr ∧
    (∀ (p1 p2 : ℚ) (cal : Option ℚ),
      (mkSwimWorkoutCore st en p1 cal).get_calories =
      (mkSwimWorkoutCore st en p2 cal).get_calories) ∧
    (∀ (s1 s2 : SwimWorkout) (p q : ℚ),
      weq gps (.swim { s1 with pace := p }) (.swim { s2 with pace := q }) =
      weq gps (.swim s1) (.swim s2)) := by
  refine ⟨?_, by norm_num [SwimWorkout.cal_per_hr, Workout.cal_per_hr], ?_, ?_⟩
  · show SwimWorkout.cal_per_hr * (en - st) / 3600 = 400 * ((en - st) / 3600)
    rw [SwimWorkout.cal_per_hr]
    ring
  · intro p1 p2 cal
    rfl
  · intro s1 s2 p q
    rfl

/-- C4: two records compare equal (`__eq__` returns True) exactly when they
are of the same runtime class, agree on `start`, `end` and `kind`, their
polymorphically dispatched `getCalories()` calls both succeed with the same
value, and — when both are RunningWorkouts — their elevation gains agree;
`routeGpsPoints` and `pace` enter only through the derived calorie value,
never directly. -/
theorem c4_equality_semantics (gps : Pt → Pt → ℚ) (a b : WRecord) :
    weq gps a b = some true ↔
      (a.tag = b.tag ∧
       a.toWorkout.start = b.toWorkout.start ∧
       a.toWorkout.end_ = b.toWorkout.end_ ∧
       a.toWorkout.kind = b.toWorkout.kind ∧
       (∃ c : ℚ, a.get_calories gps = some c ∧ b.get_calories gps = some c) ∧
       elevEqCond a b) := by
  cases a with
  | base wa =>
    cases b with
    | base wb =>
      simp only [weq, WRecord.tag, WRecord.toWorkout, WRecord.get_calories, elevEqCond,
        baseFieldsEq, Option.some.injEq, Bool.and_eq_true, decide_eq_true_eq,
        Option.some.injEq, exists_eq_left, true_and, and_true]
      aesop
    | run rb => simp [weq, WRecord.tag]
    | swim sb => simp [weq, WRecord.tag]
  | run ra =>
    cases b with
    | base wb => simp [weq, WRecord.tag]
    | run rb =>
      by_cases hb : baseFieldsEq ra.toWorkout rb.toWorkout
      · cases hca : ra.get_calories gps with
        | none =>
          simp only [weq, hb, if_true, hca, Option.bind, WRecord.tag, WRecord.toWorkout,
            WRecord.get_calories, elevEqCond]
          simp
        | some ca =>
          cases hcb : rb.get_calories gps with
          | none =>
            simp only [weq, hb, if_true, hca, hcb, WRecord.tag, WRecord.toWorkout,
              WRecord.get_calories, elevEqCond, Option.bind_eq_bind, Option.some_bind,
              Option.none_bind]
            simp
          | some cb =>
            simp only [weq, hb, if_true, hca, hcb, WRecord.tag, WRecord.toWorkout,
              WRecord.get_calories, elevEqCond, Option.bind_eq_bind, Option.some_bind,
              pure, Option.some.injEq, Bool.and_eq_true, decide_eq_true_eq]
            simp only [baseFieldsEq, Bool.and_eq_true, decide_eq_true_eq] at hb
            constructor
            · rintro ⟨hcacb, helev⟩
              exact ⟨by trivial, hb.1.1, hb.1.2, hb.2, ⟨ca, rfl, hcacb.symm⟩, helev⟩
            · rintro ⟨-, -, -, -, ⟨c, hc1, hc2⟩, helev⟩
              exact ⟨hc1.trans hc2.symm, helev⟩
      · simp only [weq, hb, if_false]
        simp only [baseFieldsEq, Bool.and_eq_true, decide_eq_true_eq] at hb
        simp only [WRecord.tag, WRecord.toWorkout, WRecord.get_calories, elevEqCond]
        constructor
        · intro h
          exact absurd h (by simp)
        · rintro ⟨-, h1, h2, h3, -, -⟩
          exact absurd ⟨⟨h1, h2⟩, h3⟩ hb
    | swim sb => simp [weq, WRecord.tag]
  | swim sa =>
    cases b with
    | base wb => simp [weq, WRecord.tag]
    | run rb => simp [weq, WRecord.tag]
    | swim sb =>
      simp only [weq, WRecord.tag, WRecord.toWorkout, WRecord.get_calories, elevEqCond,
        baseFieldsEq, Option.some.injEq, Bool.and_eq_true, decide_eq_true_eq,
        exists_eq_left, true_and, and_true]
      aesop

/-- C7: `total_calories` sums the polymorphically dispatched
`getCalories()` of each record: the empty list yields 0, and for any two
records whose (dispatched) `getCalories()` calls return `c1` and `c2`, the
two-element list yields `c1 + c2`. -/
theorem c7_total_calories_sum (gps : Pt → Pt → ℚ) (w1 w2 : WRecord) (c1 c2 : ℚ)
    (h1 : w1.get_calories gps = some c1) (h2 : w2.get_calories gps = some c2) :
    total_calories gps [] = some 0 ∧
    total_calories gps [w1, w2] = some (c1 + c2) := by
  refine ⟨rfl, ?_⟩
  rw [total_calories, totalCaloriesLoop]
  simp only [h1, Option.some_bind]
  show totalCaloriesLoop gps [w2] (0 + c1) = some (c1 + c2)
  rw [totalCaloriesLoop]
  simp only [h2, Option.some_bind]
  show totalCaloriesLoop gps [] (0 + c1 + c2) = some (c1 + c2)
  rw [totalCaloriesLoop]
  norm_num

/-- C7 witness: a base workout of one hour with no explicit calories (200)
and a swim workout of one hour with no explicit calories (400) total
600. -/
theorem c7_total_calories_sum_witness :
    total_calories (fun _ _ => 0) [] = some 0 ∧
    total_calories (fun _ _ => 0)
      [.base (mkWorkoutCore 0 3600 none), .swim (mkSwimWorkoutCore 0 3600 1 none)] =
      some 600 := by
  have h := c7_total_calories_sum (fun _ _ => 0) (.base (mkWorkoutCore 0 3600 none))
      (.swim (mkSwimWorkoutCore 0 3600 1 none)) 200 400
      (by norm_num [WRecord.get_calories, Workout.get_calories, mkWorkoutCore,
        Workout.cal_per_hr])
      (by norm_num [WRecord.get_calories, SwimWorkout.get_calories, mkSwimWorkoutCore,
        mkWorkoutCore, SwimWorkout.cal_per_hr])
  refine ⟨h.1, ?_⟩
  rw [h.2]
  norm_num

/-- C8: `total_elapsed_time` parses each pair and sums `end - start` in
seconds: the empty list yields 0; whenever every string of the list parses,
the result is the sum of the parsed differences; and on the concrete list
[("1/1/2021 2:00 PM", "1/1/2021 2:05 PM"), ("3/12/2021 1:22 PM",
"3/12/2021 1:32 PM")] — whose two ranges span 300 and 600 seconds — the
result is 900 seconds. -/
theorem c8_total_elapsed_time_sum (parse : String → Option ℚ) (t1 t2 t3 t4 : ℚ)
    (h1 : parse "1/1/2021 2:00 PM" = some t1)
    (h2 : parse "1/1/2021 2:05 PM" = some t2)
    (h3 : parse "3/12/2021 1:22 PM" = some t3)
    (h4 : parse "3/12/2021 1:32 PM" = some t4)
    (h12 : t2 - t1 = 300) (h34 : t4 - t3 = 600) :
    total_elapsed_time parse [] = some 0 ∧
    (∀ (pairs : List (String × String)) (ds : List ℚ),
      parsedDiffs parse pairs = some ds → total_elapsed_time parse pairs = some ds.sum) ∧
    total_elapsed_time parse
      [("1/1/2021 2:00 PM", "1/1/2021 2:05 PM"), ("3/12/2021 1:22 PM", "3/12/2021 1:32 PM")] =
      some 900 := by
  have hgen : ∀ (pairs : List (String × String)) (ds : List ℚ),
      parsedDiffs parse pairs = some ds → total_elapsed_time parse pairs = some ds.sum := by
    intro pairs ds hds
    rw [total_elapsed_time, totalElapsedLoop_eq_parsedDiffs, hds]
    simp
  refine ⟨rfl, hgen, ?_⟩
  have hds : parsedDiffs parse
      [("1/1/2021 2:00 PM", "1/1/2021 2:05 PM"), ("3/12/2021 1:22 PM", "3/12/2021 1:32 PM")] =
      some [t2 - t1, t4 - t3] := by
    simp [parsedDiffs, h1, h2, h3, h4]
  rw [hgen _ _ hds]
  rw [List.sum_cons, List.sum_cons, List.sum_nil, h12, h34]
  norm_num

/-- C8 witness: a lookup parser assigning the four strings instants 0, 300,
86400 and 87000 seconds (so the ranges span 300 and 600 seconds) makes the
concrete call return 900. -/
theorem c8_total_elapsed_time_sum_witness :
    total_elapsed_time
      (fun s => if s = "1/1/2021 2:00 PM" then some (0 : ℚ)
        else if s = "1/1/2021 2:05 PM" then some 300
        else if s = "3/12/2021 1:22 PM" then some 86400
        else if s = "3/12/2021 1:32 PM" then some 87000
        else none)
      [("1/1/2021 2:00 PM", "1/1/2021 2:05 PM"), ("3/12/2021 1:22 PM", "3/12/2021 1:32 PM")] =
      some 900 := by
  have h := c8_total_elapsed_time_sum
      (fun s => if s = "1/1/2021 2:00 PM" then some (0 : ℚ)
        else if s = "1/1/2021 2:05 PM" then some 300
        else if s = "3/12/2021 1:22 PM" then some 86400
        else if s = "3/12/2021 1:32 PM" then some 87000
        else none)
      0 300 86400 87000 (by simp) (by simp) (by simp) (by simp)
      (by norm_num) (by norm_num)
  exact h.2.2

/-- C9: each constructor fixes `kind` and `icon` to its variant's constants
("Workout"/😓, "Running"/🏃🏽‍, "Swimming"/🏊‍), and every mutating operation
(`set_calories`, `set_start`, `set_end`, `set_elev`) preserves both fields;
the remaining public operations (getters, equality, rendering) are pure
reads and produce no record at all in this embedding. -/
theorem c9_kind_icon_fixed (parse : String → Option ℚ) :
    (∀ (st en : ℚ) (cal : Option ℚ),
      (mkWorkoutCore st en cal).kind = "Workout" ∧ (mkWorkoutCore st en cal).icon = "😓") ∧
    (∀ (st en elev : ℚ) (cal : Option ℚ) (route : Option (List Pt)),
      (mkRunWorkoutCore st en elev cal route).toWorkout.kind = "Running" ∧
      (mkRunWorkoutCore st en elev cal route).toWorkout.icon = "🏃🏽‍") ∧
    (∀ (st en pace : ℚ) (cal : Option ℚ),
      (mkSwimWorkoutCore st en pace cal).toWorkout.kind = "Swimming" ∧
      (mkSwimWorkoutCore st en pace cal).toWorkout.icon = "🏊‍") ∧
    (∀ (w : WRecord) (c : Option ℚ),
      (w.set_calories c).toWorkout.kind = w.toWorkout.kind ∧
      (w.set_calories c).toWorkout.icon = w.toWorkout.icon) ∧
    (∀ (w w' : WRecord) (s : String), w.set_start parse s = some w' →
      w'.toWorkout.kind = w.toWorkout.kind ∧ w'.toWorkout.icon = w.toWorkout.icon) ∧
    (∀ (w w' : WRecord) (s : String), w.set_end parse s = some w' →
      w'.toWorkout.kind = w.toWorkout.kind ∧ w'.toWorkout.icon = w.toWorkout.icon) ∧
    (∀ (r : RunWorkout) (e : ℚ),
      (r.set_elev e).toWorkout.kind = r.toWorkout.kind ∧
      (r.set_elev e).toWorkout.icon = r.toWorkout.icon) := by
  refine ⟨fun st en cal => ⟨rfl, rfl⟩, fun st en elev cal route => ⟨rfl, rfl⟩,
    fun st en pace cal => ⟨rfl, rfl⟩, fun w c => ?_, fun w w' s h => ?_,
    fun w w' s h => ?_, fun r e => ⟨rfl, rfl⟩⟩
  · cases w <;> exact ⟨rfl, rfl⟩
  · rw [WRecord.set_start] at h
    cases hp : parse s with
    | none => rw [hp] at h; exact absurd h (by simp)
    | some t =>
      rw [hp] at h
      simp only [Option.bind_eq_bind', Option.some_bind, Option.pure_def,
        Option.some.injEq] at h
      subst h
      cases w <;> exact ⟨rfl, rfl⟩
  · rw [WRecord.set_end] at h
    cases hp : parse s with
    | none => rw [hp] at h; exact absurd h (by simp)
    | some t =>
      rw [hp] at h
      simp only [Option.bind_eq_bind', Option.some_bind, Option.pure_def,
        Option.some.injEq] at h
      subst h
      cases w <;> exact ⟨rfl, rfl⟩

/-- C9 witness: a concrete successful `set_start` on a swim record keeps
the "Swimming" kind and its icon. -/
theorem c9_kind_icon_fixed_witness :
    WRecord.set_start (fun _ => some 7) (.swim (mkSwimWorkoutCore 0 3600 2 none)) "x" =
      some (.swim { mkSwimWorkoutCore 0 3600 2 none with
        toWorkout := { (mkSwimWorkoutCore 0 3600 2 none).toWorkout with start := 7 } }) ∧
    (WRecord.toWorkout (.swim { mkSwimWorkoutCore 0 3600 2 none with
        toWorkout := { (mkSwimWorkoutCore 0 3600 2 none).toWorkout with start := 7 } })).kind =
      "Swimming" := by
  have h := (c9_kind_icon_fixed (fun _ => some 7)).2.2.2.2.1
      (.swim (mkSwimWorkoutCore 0 3600 2 none))
      (.swim { mkSwimWorkoutCore 0 3600 2 none with
        toWorkout := { (mkSwimWorkoutCore 0 3600 2 none).toWorkout with start := 7 } })
      "x" rfl
  exact ⟨rfl, h.1⟩

/-- C10: `set_start` parses before assigning, so an unparseable string
raises with the record unchanged (no successor state exists), and a
parseable string produces a record differing only in `start`; `set_end` is
symmetric; `set_calories` is total and changes only the `calories`
field. -/
theorem c10_setter_error_and_frame (parse : String → Option ℚ) (w : WRecord) (s : String) :
    (parse s = none → w.set_start parse s = none ∧ w.set_end parse s = none) ∧
    (∀ t : ℚ, parse s = some t →
      ∃ w', w.set_start parse s = some w' ∧
        w'.toWorkout.start = t ∧
        w'.toWorkout.end_ = w.toWorkout.end_ ∧
        w'.toWorkout.kind = w.toWorkout.kind ∧
        w'.toWorkout.icon = w.toWorkout.icon ∧
        w'.toWorkout.calories = w.toWorkout.calories ∧
        w'.tag = w.tag ∧ w'.elev? = w.elev? ∧ w'.route? = w.route? ∧ w'.pace? = w.pace?) ∧
    (∀ t : ℚ, parse s = some t →
      ∃ w', w.set_end parse s = some w' ∧
        w'.toWorkout.end_ = t ∧
        w'.toWorkout.start = w.toWorkout.start ∧
        w'.toWorkout.kind = w.toWorkout.kind ∧
        w'.toWorkout.icon = w.toWorkout.icon ∧
        w'.toWorkout.calories = w.toWorkout.calories ∧
        w'.tag = w.tag ∧ w'.elev? = w.elev? ∧ w'.route? = w.route? ∧ w'.pace? = w.pace?) ∧
    (∀ c : Option ℚ,
      (w.set_calories c).toWorkout.calories = c ∧
      (w.set_calories c).toWorkout.start = w.toWorkout.start ∧
      (w.set_calories c).toWorkout.end_ = w.toWorkout.end_ ∧
      (w.set_calories c).toWorkout.kind = w.toWorkout.kind ∧
      (w.set_calories c).toWorkout.icon = w.toWorkout.icon ∧
      (w.set_calories c).tag = w.tag ∧ (w.set_calories c).elev? = w.elev? ∧
      (w.set_calories c).route? = w.route? ∧ (w.set_calories c).pace? = w.pace?) := by
  refine ⟨fun hn => ?_, fun t ht => ?_, fun t ht => ?_, fun c => ?_⟩
  · constructor <;> simp [WRecord.set_start, WRecord.set_end, hn]
  · cases w with
    | base b =>
      exact ⟨.base { b with start := t },
        by simp [WRecord.set_start, ht], rfl, rfl, rfl, rfl, rfl, rfl, rfl, rfl, rfl⟩
    | run r =>
      exact ⟨.run { r with toWorkout := { r.toWorkout with start := t } },
        by simp [WRecord.set_start, ht], rfl, rfl, rfl, rfl, rfl, rfl, rfl, rfl, rfl⟩
    | swim sw =>
      exact ⟨.swim { sw with toWorkout := { sw.toWorkout with start := t } },
        by simp [WRecord.set_start, ht], rfl, rfl, rfl, rfl, rfl, rfl, rfl, rfl, rfl⟩
  · cases w with
    | base b =>
      exact ⟨.base { b with end_ := t },
        by simp [WRecord.set_end, ht], rfl, rfl, rfl, rfl, rfl, rfl, rfl, rfl, rfl⟩
    | run r =>
      exact ⟨.run { r with toWorkout := { r.toWorkout with end_ := t } },
        by simp [WRecord.set_end, ht], rfl, rfl, rfl, rfl, rfl, rfl, rfl, rfl, rfl⟩
    | swim sw =>
      exact ⟨.swim { sw with toWorkout := { sw.toWorkout with end_ := t } },
        by simp [WRecord.set_end, ht], rfl, rfl, rfl, rfl, rfl, rfl, rfl, rfl, rfl⟩
  · cases w <;> exact ⟨rfl, rfl, rfl, rfl, rfl, rfl, rfl, rfl, rfl⟩

/-- C10 witness: with an always-failing parser, `set_start` and `set_end`
on a concrete run record raise and yield no successor record. -/
theorem c10_setter_error_and_frame_witness :
    WRecord.set_start (fun _ => none) (.run (mkRunWorkoutCore 0 3600 5 none none)) "x" =
      none ∧
    WRecord.set_end (fun _ => none) (.run (mkRunWorkoutCore 0 3600 5 none none)) "x" =
      none := by
  exact (c10_setter_error_and_frame (fun _ => none)
    (.run (mkRunWorkoutCore 0 3600 5 none none)) "x").1 rfl
